import Mathlib

/-!
Shallow embedding of the AutoPatch-PR-Agent core (pipeline orchestration and
branch-publication protocol) and proofs about it.

The embedding follows the Python sources:
  * `src/core/artifacts.py`   — artifact store (`store_issues`, `get_artifact`)
  * `src/core/git_utils.py`   — `write_file`, `clone_repo`, `create_branch_and_push`
  * `src/agents/fix_agent_new.py` — `fix_issues_with_llm`
  * `src/agents/publish_agent.py` — `create_pull_request`
  * `src/agents/orchestrator.py`  — `run_pipeline`

Side-effecting primitives (git, filesystem, LLM, GitHub API) are modelled by
explicit environment records whose fields fix the outcome of each primitive
call; the embedded functions return, next to their Python return value or
raised exception (`Except`), the list of state-mutating effects they performed,
in order.
-/

namespace AutoPatch

/-! ## Python string primitives used by the sources

All string operations are implemented over `List Char` by structural
recursion so that every definition evaluates inside the kernel. -/

/-- Is `p` a prefix of `l`? -/
def isPrefixL : List Char → List Char → Bool
  | [], _ => true
  | _ :: _, [] => false
  | a :: as, b :: bs => a == b && isPrefixL as bs

/-- Does `sub` occur as a contiguous sublist of `l`? -/
def containsL (sub : List Char) : List Char → Bool
  | [] => sub.isEmpty
  | c :: rest => isPrefixL sub (c :: rest) || containsL sub rest

/-- Fuel-driven split on a (non-empty) separator, left to right,
non-overlapping: the semantics of Python `s.split(sep)` and Lean
`String.splitOn`. -/
def splitOnFuel (sep : List Char) : Nat → List Char → List Char → List (List Char)
  | _, [], acc => [acc.reverse]
  | 0, l, acc => [acc.reverse ++ l]
  | fuel + 1, c :: rest, acc =>
    if sep ≠ [] && isPrefixL sep (c :: rest) then
      acc.reverse :: splitOnFuel sep fuel ((c :: rest).drop sep.length) []
    else
      splitOnFuel sep fuel rest (c :: acc)

/-- `s.split(sep)` (`[s]` for an empty separator, as `String.splitOn`). -/
def splitOnS (s sep : String) : List String :=
  if sep = "" then [s]
  else (splitOnFuel sep.data (s.data.length + 1) s.data []).map String.mk

/-- `s.startswith(p)`. -/
def startsWithS (s p : String) : Bool :=
  isPrefixL p.data s.data

/-- `s.endswith(p)`. -/
def endsWithS (s p : String) : Bool :=
  isPrefixL p.data.reverse s.data.reverse

/-- ASCII lowercase of one character. -/
def toLowerC (c : Char) : Char :=
  if 'A' ≤ c ∧ c ≤ 'Z' then Char.ofNat (c.toNat + 32) else c

/-- `s.lower()` (ASCII range; the texts matched by the code are ASCII). -/
def toLowerS (s : String) : String :=
  String.mk (s.data.map toLowerC)

/-- ASCII whitespace. -/
def isWsp (c : Char) : Bool :=
  c == ' ' || c == '\t' || c == '\n' || c == '\r'

/-- `s.strip()`. -/
def trimS (s : String) : String :=
  String.mk ((s.data.dropWhile isWsp).reverse.dropWhile isWsp).reverse

/-- First `n` characters. -/
def takeS (s : String) (n : Nat) : String :=
  String.mk (s.data.take n)

/-- All but the first `n` characters. -/
def dropS (s : String) (n : Nat) : String :=
  String.mk (s.data.drop n)

/-- All but the last `n` characters. -/
def dropRightS (s : String) (n : Nat) : String :=
  String.mk (s.data.take (s.data.length - n))

/-- Join with a separator. -/
def intercalateS (sep : String) : List String → String
  | [] => ""
  | [a] => a
  | a :: rest => a ++ sep ++ intercalateS sep rest

/-- Python `s.rstrip('/')`: drop every trailing `'/'`. -/
def pyRstripSlash (s : String) : String :=
  String.mk (s.data.reverse.dropWhile (fun c => c = '/')).reverse

/-- Left-to-right, non-overlapping removal of every occurrence of `".git"`
from a character list: the semantics of Python `s.replace(".git", "")`. -/
def removeGitAux : List Char → List Char
  | '.' :: 'g' :: 'i' :: 't' :: rest => removeGitAux rest
  | c :: rest => c :: removeGitAux rest
  | [] => []

/-- Python `s.replace(".git", "")`. -/
def stripDotGitAll (s : String) : String :=
  String.mk (removeGitAux s.data)

/-- The origin-URL normalization the code applies everywhere:
`url.rstrip("/").replace(".git", "")` (git_utils.py:78-79, orchestrator.py:184-185,
publish_agent.py:117).  Note `.replace` removes every occurrence of `".git"`,
not only a trailing suffix. -/
def pyNormalize (s : String) : String :=
  stripDotGitAll (pyRstripSlash s)

/-- Normalization as the specification sentence words it: strip a trailing
slash and a trailing `.git` suffix.  Declared only to compare the spec's
wording with the code's `pyNormalize`. -/
def specNormalize (s : String) : String :=
  let t := pyRstripSlash s
  if endsWithS t ".git" then dropRightS t 4 else t

/-- Python `sub in s` (substring containment; `"" in s` is `True`). -/
def pyIn (sub s : String) : Bool :=
  containsL sub.data s.data

/-- Python truthiness of an optional string (`None` and `""` are falsy). -/
def pyTruthy : Option String → Bool
  | none => false
  | some s => s ≠ ""

/-- `re.search(r"([a-f0-9\-]{36})", s)` (orchestrator.py:108): the leftmost
window of 36 consecutive characters drawn from `[a-f0-9-]`. -/
def isIdChar (c : Char) : Bool :=
  decide (('a' ≤ c ∧ c ≤ 'f') ∨ ('0' ≤ c ∧ c ≤ '9') ∨ c = '-')

/-- Scan for the leftmost 36-character id window. -/
def findIdAux : List Char → Option (List Char)
  | [] => none
  | c :: cs =>
    if (c :: cs).length ≥ 36 && ((c :: cs).take 36).all isIdChar then
      some ((c :: cs).take 36)
    else
      findIdAux cs

/-- Extract the report id from the analysis output (orchestrator.py:108-112). -/
def findReportId (s : String) : Option String :=
  (findIdAux s.data).map String.mk

/-! ## Artifact store (`src/core/artifacts.py`) -/

/-- One static-analysis finding, with the two filename keys the fix driver
consults (`issue.get("filename")`, `issue.get("file")`). Other keys of the
Python dict are irrelevant to the verified code paths. -/
structure IssueRecord where
  filename : Option String := none
  file : Option String := none
  deriving Repr, DecidableEq

/-- A stored report: `{"issues": ..., "count": ..., "repo_path": ...}`. -/
structure Artifact where
  issues : List IssueRecord
  count : Nat
  repo_path : String
  deriving Repr, DecidableEq

/-- The module-level `ARTIFACT_STORE` dict plus the `MEMORY_BANK["last_issues"]`
entry.  Dict assignment is modelled by prepending; lookup takes the most
recent binding, matching overwrite semantics. -/
structure ArtifactState where
  store : List (String × Artifact) := []
  lastIssues : List IssueRecord := []
  deriving Repr, DecidableEq

/-- `store_issues(issues, repo_path)` (artifacts.py:8-17).  `uuid.uuid4()` is
supplied by the caller as `freshId`; `issues if issues else []` equals `issues`
and `len(issues) if issues else 0` equals `len(issues)`. -/
def store_issues (st : ArtifactState) (freshId : String)
    (issues : List IssueRecord) (repo_path : String) : String × ArtifactState :=
  (freshId,
    { store := (freshId, { issues := issues, count := issues.length, repo_path := repo_path }) :: st.store,
      lastIssues := issues })

/-- `get_artifact(report_id)` (artifacts.py:26-27). -/
def get_artifact (st : ArtifactState) (report_id : String) : Option Artifact :=
  st.store.lookup report_id

/-! ## `write_file` (`src/core/git_utils.py:10-17`) -/

/-- Filesystem effects actually performed. -/
inductive FsEff where
  | wrote (path content : String)
  deriving Repr, DecidableEq

/-- Filesystem environment: `writeErr p = some e` means the mkdir/open/write
sequence for path `p` raises an exception rendered as `e`. -/
structure FsEnv where
  writeErr : String → Option String

/-- `write_file(file_path, content)`: catches every exception and returns a
string either way. -/
def write_file (env : FsEnv) (file_path content : String) : String × List FsEff :=
  match env.writeErr file_path with
  | none => ("Updated " ++ file_path, [FsEff.wrote file_path content])
  | some e => ("Error writing " ++ file_path ++ ": " ++ e, [])

/-! ## Fix driver (`src/agents/fix_agent_new.py:20-74`) -/

/-- `asyncio.wait_for(..., timeout=30.0)` bound. -/
def LLM_TIMEOUT : Nat := 30

/-- Environment for one fix run: file existence, file reads, and the code-fix
generator's behaviour per issue index (1-based, as in the source's
`enumerate(issues, 1)`). -/
structure FixEnv where
  fileExists : String → Bool
  readFile : String → Except String String
  llmDuration : Nat → Nat
  llmResult : Nat → Except String String
  fs : FsEnv

/-- What happened to one issue; `fixedIssue` records the ignored `write_file`
return string. -/
inductive FixAction where
  | skippedNoFilename (idx : Nat)
  | skippedMissingFile (idx : Nat) (f : String)
  | readError (idx : Nat) (msg : String)
  | timedOut (idx : Nat) (f : String)
  | llmFailed (idx : Nat) (msg : String)
  | emptyResponse (idx : Nat) (f : String)
  | fixedIssue (idx : Nat) (f : String) (writeResult : String)
  deriving Repr, DecidableEq

/-- `issue.get("filename") or issue.get("file")` (Python `or`: first truthy). -/
def resolvedFilename (i : IssueRecord) : Option String :=
  if pyTruthy i.filename then i.filename else i.file

/-- The body of one loop iteration of `fix_issues_with_llm`.  Each failure
constructor corresponds to one `continue`/`except` path of the source:
missing filename (line 38-40), missing file (line 42-44), outer
`except Exception` around the read (line 70-72), `asyncio.TimeoutError`
(line 66-67), inner `except Exception` (line 68-69), empty response
(line 64-65).  On a non-empty response `write_file` is called and its result
ignored; `fixed_count` is incremented regardless (lines 60-63). -/
def processIssue (env : FixEnv) (idx : Nat) (issue : IssueRecord) : FixAction :=
  match resolvedFilename issue with
  | none => FixAction.skippedNoFilename idx
  | some f =>
    if f = "" then FixAction.skippedNoFilename idx
    else if ¬ env.fileExists f then FixAction.skippedMissingFile idx f
    else
      match env.readFile f with
      | Except.error e => FixAction.readError idx e
      | Except.ok _content =>
        if env.llmDuration idx > LLM_TIMEOUT then FixAction.timedOut idx f
        else
          match env.llmResult idx with
          | Except.error e => FixAction.llmFailed idx e
          | Except.ok resp =>
            if trimS resp = "" then FixAction.emptyResponse idx f
            else FixAction.fixedIssue idx f (write_file env.fs f resp).1

/-- The `for idx, issue in enumerate(issues, 1)` loop. -/
def fixLoop (env : FixEnv) : Nat → List IssueRecord → List FixAction
  | _, [] => []
  | idx, i :: rest => processIssue env idx i :: fixLoop env (idx + 1) rest

/-- Did this iteration increment `fixed_count`? -/
def isFixed : FixAction → Bool
  | FixAction.fixedIssue _ _ _ => true
  | _ => false

/-- `fix_issues_with_llm(runner_fix, session_id, report_id)`: returns the
final `fixed_count` together with the per-issue log.  `.error` would model an
exception escaping the function; every exception inside the loop is caught by
the source's handlers, so no branch produces one. -/
def fix_issues_with_llm (env : FixEnv) (st : ArtifactState) (report_id : String) :
    Except String (Nat × List FixAction) :=
  match get_artifact st report_id with
  | none => Except.ok (0, [])
  | some artifact =>
    if artifact.issues.length = 0 then Except.ok (0, [])
    else
      let log := fixLoop env 1 artifact.issues
      Except.ok ((log.filter (fun a => isFixed a)).length, log)

/-- Number of issues a report holds (0 when the id is unknown). -/
def issueCountOf (st : ArtifactState) (report_id : String) : Nat :=
  match get_artifact st report_id with
  | none => 0
  | some a => a.issues.length

/-! ## Working-copy operations (`src/core/git_utils.py`) -/

/-- The two exception classes of `create_branch_and_push`:
`MergeConflictError` (git_utils.py:68-69) and a generic
`RuntimeError`/`GitCommandError`. -/
inductive GitError where
  | mergeConflict (msg : String)
  | runtime (msg : String)
  deriving Repr, DecidableEq

/-- Completed state-mutating git operations, in execution order. -/
inductive GitEff where
  | checkoutExisting (b : String)
  | checkoutNew (b : String)
  | stashPushPaths (paths : List String)
  | stashPushAll
  | createHead (b : String)
  | addFile (f : String)
  | addAll
  | commitEff (msg : String)
  | emptyCommit (msg : String)
  | setUserConfig
  | pushEff (b : String)
  | setUrl (u : String)
  | pullEff
  | stashPop
  deriving Repr, DecidableEq

/-- Outcomes of the git primitives invoked by `create_branch_and_push`.
A `some errText` field means the corresponding call raises with that text;
`none` means it succeeds. -/
structure GitEnv where
  /-- `repo.remotes.origin.url or ""` of the working copy. -/
  originUrl : String
  /-- `new_branch in repo.heads`. -/
  branchExistsLocally : Bool := false
  checkoutErr : Option String := none
  stashErr : Option String := none
  checkoutRetryErr : Option String := none
  createHeadErr : Option String := none
  addErr : Option String := none
  /-- Outcome of `repo.index.commit(msg)` (a `GitCommandError` text). -/
  commitErr : Option String := none
  emptyCommitErr : Option String := none
  commitRetryErr : Option String := none
  /-- Outcome of the initial `origin.push`. -/
  pushErr : Option String := none
  /-- Outcome of the token-authenticated retry push. -/
  authPushErr : Option String := none
  /-- Outcome of the finally-block `origin.set_url(orig_url)` restore after a
  token-authenticated retry (git_utils.py:220-224): its exception is
  swallowed, so on `false` the token-embedded URL persists. -/
  restoreUrlOk : Bool := true
  /-- Outcome of `repo.git.pull()`. -/
  pullErr : Option String := none
  /-- Outcome of the push retried after a successful pull. -/
  retryPushErr : Option String := none
  stashPopOk : Bool := true

/-- Parse the conflicting-file list out of a checkout error message
(git_utils.py:99-113): lines after the marker line, stopping at
`Please move`/`Aborting`, blank lines skipped. -/
def parseConflictAux : List String → Bool → List String
  | [], _ => []
  | ln :: rest, started =>
    if ¬ started then
      if pyIn "The following untracked working tree files would be overwritten by checkout:" ln then
        parseConflictAux rest true
      else
        parseConflictAux rest false
    else
      if (startsWithS (trimS ln) "Please move") || (trimS ln = "Aborting") then []
      else if trimS ln = "" then parseConflictAux rest true
      else trimS ln :: parseConflictAux rest true

/-- `x-access-token:<token>@host` URL rewrite (git_utils.py:203-209).
Percent-encoding of the token (`quote`) is elided; existing userinfo is
dropped as `urlparse().hostname`/`port` would. -/
def authedUrl (url token : String) : String :=
  match splitOnS url "://" with
  | [] => url
  | [_] => url
  | scheme :: rest0 =>
    let rest := intercalateS "://" rest0
    let netloc := (splitOnS rest "/").headD ""
    let path := dropS rest netloc.data.length
    let hostport := (splitOnS netloc "@").getLastD netloc
    scheme ++ "://" ++ "x-access-token:" ++ token ++ "@" ++ hostport ++ path

/-- Branch creation/checkout step (git_utils.py:84-140), returning the
effects performed, whether a stash was created, and the raised error if any.
On an `add`-style failure the partially performed sub-steps of the failing
call are not tracked. -/
def checkoutPhase (env : GitEnv) (b : String) : List GitEff × Bool × Option GitError :=
  let co : GitEff := if env.branchExistsLocally then GitEff.checkoutExisting b else GitEff.checkoutNew b
  match env.checkoutErr with
  | none => ([co], false, none)
  | some errText =>
    if pyIn "would be overwritten" errText || pyIn "untracked working tree files" errText then
      let conflicting := parseConflictAux (splitOnS errText "\n") false
      let stashEff : GitEff :=
        if conflicting ≠ [] then GitEff.stashPushPaths conflicting else GitEff.stashPushAll
      match env.stashErr with
      | some se =>
        ([], false, some (GitError.runtime ("Failed to create or checkout branch " ++ b ++ ": " ++ se)))
      | none =>
        match env.checkoutRetryErr with
        | none => ([stashEff, co], true, none)
        | some re =>
          ([stashEff], true,
            some (GitError.runtime ("Failed to create or checkout branch " ++ b ++ ": " ++ re)))
    else
      match env.createHeadErr with
      | none => ([GitEff.createHead b], false, none)
      | some he =>
        ([], false, some (GitError.runtime ("Failed to create or checkout branch " ++ b ++ ": " ++ he)))

/-- Staging and commit step (git_utils.py:142-183).  `if files_to_add:` is
Python truthiness, so an empty list falls back to `git add -A`.  A commit
failure whose text mentions nothing-to-commit triggers `--allow-empty`
(its own failure is swallowed); any other commit failure sets a bot identity
and retries once. -/
def addEffsOf (files_to_add : Option (List String)) : List GitEff :=
  match files_to_add with
  | some fs => if fs ≠ [] then fs.map GitEff.addFile else [GitEff.addAll]
  | none => [GitEff.addAll]

/-- Commit step following staging (git_utils.py:151-183). -/
def commitPhase (env : GitEnv) (files_to_add : Option (List String))
    (commit_message : Option String) : List GitEff × Option GitError :=
  let addEffs : List GitEff := addEffsOf files_to_add
  match env.addErr with
  | some ae => ([], some (GitError.runtime ae))
  | none =>
    let msg := commit_message.getD "chore: auto style fixes by agent"
    match env.commitErr with
    | none => (addEffs ++ [GitEff.commitEff msg], none)
    | some cerr =>
      if pyIn "nothing to commit" (toLowerS cerr) || pyIn "no changes added to commit" (toLowerS cerr) then
        match env.emptyCommitErr with
        | none => (addEffs ++ [GitEff.emptyCommit msg], none)
        | some _ => (addEffs, none)
      else
        match env.commitRetryErr with
        | none => (addEffs ++ [GitEff.setUserConfig, GitEff.commitEff msg], none)
        | some c2 => (addEffs, some (GitError.runtime ("Commit failed: " ++ c2)))

/-- Push step (git_utils.py:185-243).  On initial failure: with a truthy
token and an HTTP remote, rewrite the URL, retry, and attempt to restore the
original URL in a `finally` block — the restore's own exception is swallowed
(git_utils.py:220-224), so on failure the token-embedded URL persists;
otherwise pull then retry once, classifying conflict-indicating text as
`MergeConflictError`.  A failing pull's partial merge state is not tracked
as an effect. -/
def pushPhase (env : GitEnv) (b : String) (github_token : Option String) :
    List GitEff × Option GitError :=
  match env.pushErr with
  | none => ([GitEff.pushEff b], none)
  | some _e =>
    if pyTruthy github_token && startsWithS env.originUrl "http" then
      let au := authedUrl env.originUrl (github_token.getD "")
      let restoreEffs : List GitEff :=
        if env.restoreUrlOk then [GitEff.setUrl env.originUrl] else []
      match env.authPushErr with
      | none => ([GitEff.setUrl au, GitEff.pushEff b] ++ restoreEffs, none)
      | some aerr =>
        let effs := [GitEff.setUrl au] ++ restoreEffs
        if pyIn "Permission denied" aerr || pyIn "authentication failed" (toLowerS aerr) then
          (effs, some (GitError.runtime "Push failed: Token does not have permission to push. Ensure token has repo and pull_requests:write scopes."))
        else
          (effs, some (GitError.runtime ("Push with token failed: " ++ aerr)))
    else
      match env.pullErr with
      | some e2 =>
        if pyIn "CONFLICT" e2 || pyIn "conflict" e2 then
          ([], some (GitError.mergeConflict "Merge conflicts detected while pulling remote."))
        else
          ([], some (GitError.runtime ("Push failed: " ++ e2)))
      | none =>
        match env.retryPushErr with
        | none => ([GitEff.pullEff, GitEff.pushEff b], none)
        | some e2 =>
          if pyIn "CONFLICT" e2 || pyIn "conflict" e2 then
            ([GitEff.pullEff], some (GitError.mergeConflict "Merge conflicts detected while pulling remote."))
          else
            ([GitEff.pullEff], some (GitError.runtime ("Push failed: " ++ e2)))

/-- Body of `create_branch_and_push` after the origin guard: checkout,
stage+commit, push, then best-effort stash pop. -/
def cbpBody (env : GitEnv) (new_branch : String) (github_token : Option String)
    (files_to_add : Option (List String)) (commit_message : Option String) :
    Except GitError String × List GitEff :=
  match checkoutPhase env new_branch with
  | (effs1, stashCreated, err1) =>
    match err1 with
    | some e => (Except.error e, effs1)
    | none =>
      match commitPhase env files_to_add commit_message with
      | (effs2, some e) => (Except.error e, effs1 ++ effs2)
      | (effs2, none) =>
        match pushPhase env new_branch github_token with
        | (effs3, some e) => (Except.error e, effs1 ++ effs2 ++ effs3)
        | (effs3, none) =>
          let popEffs : List GitEff :=
            if stashCreated && env.stashPopOk then [GitEff.stashPop] else []
          (Except.ok new_branch, effs1 ++ effs2 ++ effs3 ++ popEffs)

/-- `create_branch_and_push(repo_path, new_branch, github_token, files_to_add,
commit_message, expected_origin)` (git_utils.py:72-255).  The origin guard
(lines 76-82) runs first: with a truthy `expected_origin`, both URLs are
normalized by `rstrip("/").replace(".git", "")` and a mismatch raises before
any other step. -/
def create_branch_and_push (env : GitEnv) (new_branch : String)
    (github_token : Option String) (files_to_add : Option (List String))
    (commit_message : Option String) (expected_origin : Option String) :
    Except GitError String × List GitEff :=
  if pyTruthy expected_origin then
    if pyNormalize env.originUrl ≠ pyNormalize (expected_origin.getD "") then
      (Except.error (GitError.runtime
        ("[Git] SAFETY CHECK FAILED: Repository origin (" ++ pyNormalize env.originUrl ++
          ") does not match expected repo (" ++ pyNormalize (expected_origin.getD "") ++
          "). Refusing to push.")), [])
    else
      cbpBody env new_branch github_token files_to_add commit_message
  else
    cbpBody env new_branch github_token files_to_add commit_message

/-! ## `clone_repo` (`src/core/git_utils.py:19-66`) -/

/-- Environment for a clone: whether the destination already holds a clone
(and its origin), whether the best-effort branch checkout and the final
`origin.set_url` succeed. -/
structure CloneEnv where
  destExists : Bool := false
  existingOrigin : String := ""
  checkoutBranchOk : Bool := true
  setUrlOk : Bool := true

/-- Result of `clone_repo`: the returned local path and the origin URL the
working copy records afterwards. -/
structure CloneOut where
  localPath : String
  recordedOrigin : String
  deriving Repr, DecidableEq

/-- The "clean" URL `clone_repo` installs as origin (git_utils.py:58-61):
`repo_url.rstrip('/').replace('.git', '')`, re-appending `.git` when the
original ended with it. -/
def cloneCleanUrl (repo_url : String) : String :=
  let c := pyNormalize repo_url
  if endsWithS repo_url ".git" then c ++ ".git" else c

/-- `clone_repo(repo_url, dest_dir, branch, github_token)`.  The token is
embedded in the transport URL only; afterwards `origin.set_url(clean_url)`
is attempted (its failure is swallowed, leaving the clone-time URL). -/
def clone_repo (env : CloneEnv) (repo_url dest_dir : String)
    (_branch : Option String) (github_token : Option String) : CloneOut :=
  let repo_name := stripDotGitAll ((splitOnS (pyRstripSlash repo_url) "/").getLastD "")
  let local_path := dest_dir ++ "/" ++ repo_name
  let clone_url :=
    if pyTruthy github_token && startsWithS repo_url "http" then
      authedUrl repo_url (github_token.getD "")
    else repo_url
  let originAfterClone := if env.destExists then env.existingOrigin else clone_url
  let recorded := if env.setUrlOk then cloneCleanUrl repo_url else originAfterClone
  { localPath := local_path, recordedOrigin := recorded }

/-! ## Host publisher (`src/agents/publish_agent.py:115-180`)

The GitHub side is modelled by `Host`, a list of existing pull requests, with
REST semantics as the spec's §6 assumes them: listing filters by repository
and qualified head `owner:branch` (state `all`: no state filtering), and
creating a pull request whose qualified head already has one is rejected with
HTTP 422. -/

/-- One pull request as the host stores it. -/
structure PullReq where
  ownerRepo : String
  /-- Qualified head `owner:branch`. -/
  head : String
  base : String
  html_url : String
  deriving Repr, DecidableEq

/-- The remote host's PR state. -/
structure Host where
  prs : List PullReq := []
  deriving Repr, DecidableEq

/-- `head=<owner>:<head_branch>` as built at publish_agent.py:133. -/
def qualifiedHead (ownerRepo branch : String) : String :=
  ((splitOnS ownerRepo "/").headD "") ++ ":" ++ branch

/-- The filter the list endpoint applies. -/
def prMatches (ownerRepo head : String) (pr : PullReq) : Bool :=
  pr.ownerRepo == ownerRepo && pr.head == head

/-- `GET /repos/{owner_repo}/pulls?head=...&state=all`. -/
def hostList (host : Host) (ownerRepo head : String) : List PullReq :=
  host.prs.filter (prMatches ownerRepo head)

/-- `POST /repos/{owner_repo}/pulls`: 422 when a PR with the same qualified
head exists, else append a PR whose `html_url` is `url`. -/
def hostCreate (host : Host) (ownerRepo branch base url : String) :
    Except Nat (PullReq × Host) :=
  let h := qualifiedHead ownerRepo branch
  if host.prs.any (prMatches ownerRepo h) then Except.error 422
  else
    let pr : PullReq := { ownerRepo := ownerRepo, head := h, base := base, html_url := url }
    Except.ok (pr, { prs := host.prs ++ [pr] })

/-- Transport environment of one `create_pull_request` call: whether the two
list requests reach the host (a network failure of the first is swallowed at
publish_agent.py:141-143, of the second at 159-160), an optional non-422 HTTP
rejection of the create request, and the `html_url` the host would assign to
a newly created PR. -/
structure PubEnv where
  list1Ok : Bool := true
  list2Ok : Bool := true
  createHttpError : Option Nat := none
  newUrl : String := ""

/-- `clean.split("github.com/")[-1]` over the normalized URL
(publish_agent.py:117-118). -/
def ownerRepoOf (repo_url : String) : String :=
  (splitOnS (pyNormalize repo_url) "github.com/").getLastD ""

/-- The 422-recovery re-query (publish_agent.py:150-160). -/
def pr422Recover (env : PubEnv) (host : Host) (owner_repo headFilter : String) :
    Except String String × Host :=
  if env.list2Ok then
    match hostList host owner_repo headFilter with
    | pr :: _ => (Except.ok pr.html_url, host)
    | [] => (Except.error "422 Unprocessable Entity", host)
  else (Except.error "422 Unprocessable Entity", host)

/-- The duplicate-avoiding pre-query (publish_agent.py:131-143): when the
list request goes through, the first PR matching `head=<owner>:<branch>`,
`state=all`; `none` when none exists or the request failed (failures are
swallowed and creation proceeds). -/
def preHitOf (env : PubEnv) (host : Host) (owner_repo headFilter : String) : Option String :=
  if env.list1Ok then
    match hostList host owner_repo headFilter with
    | [] => none
    | pr :: _ => some pr.html_url
  else none

/-- `create_pull_request(repo_url, new_branch, base_branch, gh_token, title,
body)` (publish_agent.py:115-164): pre-query for an existing PR, else create,
recovering from a 422 by re-querying. -/
def create_pull_request (env : PubEnv) (host : Host)
    (repo_url new_branch _base_branch _gh_token _title _body : String) :
    Except String String × Host :=
  match preHitOf env host (ownerRepoOf repo_url) (qualifiedHead (ownerRepoOf repo_url) new_branch) with
  | some u => (Except.ok u, host)
  | none =>
    match env.createHttpError with
    | some status =>
      if status = 422 then
        pr422Recover env host (ownerRepoOf repo_url) (qualifiedHead (ownerRepoOf repo_url) new_branch)
      else (Except.error ("GitHub API error " ++ toString status), host)
    | none =>
      match hostCreate host (ownerRepoOf repo_url) new_branch _base_branch env.newUrl with
      | Except.ok (pr, host') => (Except.ok pr.html_url, host')
      | Except.error _status =>
        pr422Recover env host (ownerRepoOf repo_url) (qualifiedHead (ownerRepoOf repo_url) new_branch)

/-! ## Pipeline orchestrator (`src/agents/orchestrator.py:24-304`)

The progress callback never observes an exception (emit swallows them,
orchestrator.py:47-52), so the event stream is modelled as a pure list.
The structured payload of the final `("result", ...)` event is the returned
result itself and is elided from the event list. -/

/-- One emitted `(stage, info)` pair. -/
abbrev Event := String × Option String

/-- The structured result dict returned by `run_pipeline`. -/
structure RunResult where
  status : String
  reason : Option String := none
  detail : Option String := none
  branch : Option String := none
  pr_url : Option String := none
  bandit : Option String := none
  deriving Repr, DecidableEq

/-- The keyword feature flags of `run_pipeline`. -/
structure Flags where
  security_lint : Bool := false
  pr_review_comments : Bool := false
  ci_integration : Bool := false
  confidence_scoring : Bool := false
  semantic_refactor : Bool := false
  auto_create_pr : Bool := false
  pr_requirement : Option String := none
  deriving Repr, DecidableEq

/-- `TEMP_REPOS_DIR` (core/config.py, the `/tmp` branch). -/
def TEMP_REPOS_DIR : String := "/tmp/autopatch-repos"

/-- Benign default for the fix-driver environment. -/
def defaultFixEnv : FixEnv :=
  { fileExists := fun _ => false
    readFile := fun _ => Except.error "missing"
    llmDuration := fun _ => 0
    llmResult := fun _ => Except.error "unavailable"
    fs := { writeErr := fun _ => none } }

/-- Outcomes of every external call one pipeline run makes. -/
structure PipeEnv where
  /-- `clone_repo` raising (uncaught by the orchestrator). -/
  cloneErr : Option String := none
  cloneEnv : CloneEnv := {}
  /-- The uuid `store_issues` draws in requirement mode. -/
  freshUuid : String := ""
  /-- `analyze_repo_for_issues` (uncaught when it raises). -/
  analyzeResult : Except String String := Except.ok ""
  banditResult : Except String String := Except.ok ""
  /-- `run_semantic_refactor` (uncaught when it raises). -/
  semanticResult : Except String String := Except.ok ""
  /-- An exception of the fix call outside the per-issue handlers. -/
  fixCallErr : Option String := none
  generateResult : Except String (List String) := Except.ok []
  confidenceResult : Except String String := Except.ok ""
  /-- `int(time.time())` for the branch name. -/
  timestamp : Nat := 0
  gitEnv : GitEnv := { originUrl := "" }
  /-- The orchestrator's own `Repo(local_path).remotes.origin.url or ""` read;
  `none` models the read raising. -/
  originRead : Option String := none
  createIssueResult : Except String String := Except.ok ""
  host : Host := {}
  pubEnv : PubEnv := {}
  /-- `post_pr_comment` raising one of its classified errors. -/
  postCommentErr : Option String := none
  fixEnv : FixEnv := defaultFixEnv

deriving instance DecidableEq for Except

/-- Everything one run produces: the event stream, the Python return value or
uncaught exception, the artifact store, the host state, the git effects of
the branch-and-push step, and whether a conflict-notification issue creation
was attempted. -/
structure PipeOut where
  events : List Event
  result : Except String RunResult
  artifacts : ArtifactState
  host : Host
  gitEffs : List GitEff
  issueAttempted : Bool
  deriving Repr, DecidableEq

/-- PR creation, optional review comment, and final result
(orchestrator.py:221-304).  PR title/body strings are abbreviated; no claim
depends on their content. -/
def pipelinePR (env : PipeEnv) (st : ArtifactState)
    (repo_url gh_token base_branch : String) (flags : Flags)
    (ev : List Event) (gitEffs : List GitEff) (created_branch : String)
    (bandit : Option String) : PipeOut :=
  let ev := ev ++ [("publish:start", none)]
  let pr_title :=
    if pyTruthy flags.pr_requirement then
      "feat: " ++ takeS (flags.pr_requirement.getD "") 60
    else "chore: auto style fixes"
  let pr_body :=
    if pyTruthy flags.pr_requirement then "Patcher - AI-Powered Auto-Generated Fixes"
    else "Patcher - Automated code style fixes"
  let baseArg := if base_branch ≠ "" then base_branch else "main"
  let prStep := create_pull_request env.pubEnv env.host repo_url created_branch baseArg gh_token pr_title pr_body
  let pr_url : Option String :=
    match prStep.1 with
    | Except.ok u => some u
    | Except.error _ => none
  let ev := ev ++
    (match prStep.1 with
     | Except.ok u => [("pr:created", some u)]
     | Except.error e => [("pr:error", some ("Failed to create PR: " ++ e))])
  let ev := ev ++ [("publish:done", some (pr_url.getD created_branch))]
  let ev := ev ++
    (if flags.pr_review_comments then
      match pr_url with
      | none => [("prreview:error", some "Cannot review PR - PR creation failed")]
      | some u =>
        match env.postCommentErr with
        | none => [("prreview:done", some u)]
        | some e => [("prreview:error", some ("Failed to post review comment: " ++ e))]
     else [("prreview:done", some "Review not requested")])
  let res : RunResult :=
    { status := "ok", branch := some created_branch, pr_url := pr_url, bandit := bandit }
  { events := ev ++ [("result", none)], result := Except.ok res,
    artifacts := st, host := prStep.2, gitEffs := gitEffs, issueAttempted := false }

/-- The pre-push origin re-validation (orchestrator.py:181-190): compare the
normalized recorded origin with the normalized caller-supplied URL; a failed
origin read (`None`) and empty normalized strings are Python-falsy and skip
the check. -/
def originMismatch (originRead : Option String) (repo_url : String) : Bool :=
  match originRead with
  | some u => pyNormalize u ≠ "" && pyNormalize repo_url ≠ "" && pyNormalize u ≠ pyNormalize repo_url
  | none => false

/-- The mismatch message (orchestrator.py:191). -/
def mismatchDetail (originRead : Option String) (repo_url : String) : String :=
  "Refusing to push: cloned repo origin (" ++ pyNormalize (originRead.getD "") ++
    ") does not match provided repo URL (" ++ pyNormalize repo_url ++ ")"

/-- `files_to_add=generated_files or None` (orchestrator.py:196): Python `or`
maps an empty list to `None`. -/
def filesArgOf (generated_files : Option (List String)) : Option (List String) :=
  match generated_files with
  | some fs => if fs ≠ [] then some fs else none
  | none => none

/-- `commit_message=(pr_requirement if pr_requirement else None)`
(orchestrator.py:196). -/
def commitMessageOf (flags : Flags) : Option String :=
  if pyTruthy flags.pr_requirement then flags.pr_requirement else none

/-- Commit/push with the pre-push origin re-validation
(orchestrator.py:173-219). -/
def pipelinePublish (env : PipeEnv) (st : ArtifactState)
    (repo_url gh_token base_branch : String) (flags : Flags)
    (ev : List Event) (generated_files : Option (List String))
    (bandit : Option String) : PipeOut :=
  let ev := ev ++ [("publish:start", none)]
  let new_branch := "auto-style-fixes-" ++ toString env.timestamp
  let ev := ev ++ [("commit:start", some new_branch)]
  if originMismatch env.originRead repo_url then
    let err := mismatchDetail env.originRead repo_url
    { events := ev ++ [("push:error", some err)],
      result := Except.ok { status := "failed", reason := some "repo_mismatch", detail := some err },
      artifacts := st, host := env.host, gitEffs := [], issueAttempted := false }
  else
    match create_branch_and_push env.gitEnv new_branch (some gh_token)
        (filesArgOf generated_files) (commitMessageOf flags) none with
    | (Except.ok cb, effs) =>
      pipelinePR env st repo_url gh_token base_branch flags
        (ev ++ [("commit:done", some cb), ("push:done", some cb)]) effs cb bandit
    | (Except.error (GitError.mergeConflict m), effs) =>
      let evc := ev ++ [("push:conflict", some m)]
      let evc := evc ++
        (match env.createIssueResult with
         | Except.ok u => [("cloner:notify", some u)]
         | Except.error _ => [])
      { events := evc ++ [("publish:error", some m),
          ("pr:error", some "Cannot create PR due to merge conflict"),
          ("prreview:error", some "Cannot review PR due to merge conflict")],
        result := Except.ok { status := "failed", reason := some "merge_conflict", detail := some m },
        artifacts := st, host := env.host, gitEffs := effs, issueAttempted := true }
    | (Except.error (GitError.runtime m), effs) =>
      { events := ev ++ [("push:error", some m), ("publish:error", some m),
          ("pr:error", some m), ("prreview:error", some m)],
        result := Except.ok { status := "failed", reason := some "push_error", detail := some m },
        artifacts := st, host := env.host, gitEffs := effs, issueAttempted := false }

/-- Optional confidence scoring and CI workflow write
(orchestrator.py:134-170).  The CI branch cannot raise (`write_file` returns
a string either way), so `ci:done` is unconditional when the flag is set; the
workflow-file write effect is not tracked. -/
def pipelineConfCi (env : PipeEnv) (st : ArtifactState)
    (repo_url gh_token base_branch : String) (flags : Flags)
    (local_path : String) (ev : List Event)
    (generated_files : Option (List String)) (bandit : Option String) : PipeOut :=
  let ev := ev ++
    (if flags.confidence_scoring then
      match env.confidenceResult with
      | Except.ok c => [("confidence:start", none), ("confidence:done", some c)]
      | Except.error e => [("confidence:start", none), ("confidence:error", some e)]
     else [])
  let ev := ev ++
    (if flags.ci_integration then
      [("ci:start", none), ("ci:done", some (local_path ++ "/.github/workflows/auto-patch.yml"))]
     else [])
  pipelinePublish env st repo_url gh_token base_branch flags ev generated_files bandit

/-- Report-id gate and the fix/generate stage (orchestrator.py:108-132). -/
def pipelineFix (env : PipeEnv) (st : ArtifactState)
    (repo_url gh_token base_branch : String) (flags : Flags)
    (local_path : String) (ev : List Event) (analysis_output : String)
    (bandit : Option String) : PipeOut :=
  match findReportId analysis_output with
  | none =>
    { events := ev,
      result := Except.ok { status := "failed", reason := some "no_analysis_report" },
      artifacts := st, host := env.host, gitEffs := [], issueAttempted := false }
  | some rid =>
    let ev := ev ++ [("generate:start", some rid), ("fix:start", some rid)]
    let fixStepOut : List Event × Option (List String) :=
      if pyTruthy flags.pr_requirement then
        match env.generateResult with
        | Except.ok fs => ([("fix:done", some rid)], some fs)
        | Except.error e => ([("fix:error", some e)], none)
      else
        match env.fixCallErr with
        | none =>
          let _ := fix_issues_with_llm env.fixEnv st rid
          ([("fix:done", some rid)], none)
        | some e => ([("fix:error", some e)], none)
    let ev := ev ++ fixStepOut.1 ++ [("generate:done", some rid), ("apply:done", some rid)]
    pipelineConfCi env st repo_url gh_token base_branch flags local_path ev fixStepOut.2 bandit

/-- Optional security scan and semantic pass (orchestrator.py:88-104).  The
security scan is guarded by try/except; the semantic pass is not, so its
exception escapes `run_pipeline`. -/
def pipelineTail (env : PipeEnv) (st : ArtifactState)
    (repo_url gh_token base_branch : String) (flags : Flags)
    (local_path : String) (ev : List Event) (analysis_output : String) : PipeOut :=
  let secPair : List Event × Option String :=
    if flags.security_lint then
      match env.banditResult with
      | Except.ok r =>
        ([("security:start", some "Running Bandit security scan"), ("security:done", some r)], some r)
      | Except.error e =>
        ([("security:start", some "Running Bandit security scan"), ("security:error", some e)], none)
    else ([], none)
  let ev := ev ++ secPair.1
  if flags.semantic_refactor then
    match env.semanticResult with
    | Except.error e =>
      { events := ev ++ [("semantic:start", none)], result := Except.error e,
        artifacts := st, host := env.host, gitEffs := [], issueAttempted := false }
    | Except.ok s =>
      pipelineFix env st repo_url gh_token base_branch flags local_path
        (ev ++ [("semantic:start", none), ("semantic:done", some s)]) analysis_output secPair.2
  else
    pipelineFix env st repo_url gh_token base_branch flags local_path ev analysis_output secPair.2

/-- `run_pipeline(repo_url, gh_token, base_branch, progress_callback, **flags)`
(orchestrator.py:24-304): clone, then requirement processing or
scan/lint/analyze, then the common tail. -/
def run_pipeline (env : PipeEnv) (st0 : ArtifactState)
    (repo_url gh_token base_branch : String) (flags : Flags) : PipeOut :=
  let ev0 : List Event := [("clone:start", none)]
  match env.cloneErr with
  | some e =>
    { events := ev0, result := Except.error e, artifacts := st0, host := env.host,
      gitEffs := [], issueAttempted := false }
  | none =>
    let branchArg : Option String := if base_branch ≠ "" then some base_branch else none
    let local_path := (clone_repo env.cloneEnv repo_url TEMP_REPOS_DIR branchArg none).localPath
    let ev1 := ev0 ++ [("clone:done", some local_path)]
    if pyTruthy flags.pr_requirement then
      let req := flags.pr_requirement.getD ""
      let stored := store_issues st0 env.freshUuid [] local_path
      let ev2 := ev1 ++
        [("requirement:start", some ("Processing requirement: " ++ takeS req 60 ++ "...")),
         ("requirement:done", some req)]
      pipelineTail env stored.2 repo_url gh_token base_branch flags local_path ev2
        ("Requirement: " ++ req ++ "\nReference ID: " ++ stored.1)
    else
      let ev2a := ev1 ++ [("scan:start", none), ("lint:start", none), ("analyze:start", none)]
      match env.analyzeResult with
      | Except.error e =>
        { events := ev2a, result := Except.error e, artifacts := st0, host := env.host,
          gitEffs := [], issueAttempted := false }
      | Except.ok out =>
        pipelineTail env st0 repo_url gh_token base_branch flags local_path
          (ev2a ++ [("analyze:done", some out), ("lint:done", some out), ("scan:done", some local_path)])
          out

/-! ## Helper lemmas -/

/-- Issues held by a report (empty when the id is unknown). -/
def issuesOf (st : ArtifactState) (report_id : String) : List IssueRecord :=
  match get_artifact st report_id with
  | none => []
  | some a => a.issues

theorem issueCountOf_eq (st : ArtifactState) (rid : String) :
    issueCountOf st rid = (issuesOf st rid).length := by
  unfold issueCountOf issuesOf
  cases get_artifact st rid <;> rfl

/-- Would this iteration increment `fixed_count`?  Pure specification of the
branch structure of `processIssue`, independent of the filesystem. -/
def wouldFixB (env : FixEnv) (idx : Nat) (i : IssueRecord) : Bool :=
  match resolvedFilename i with
  | none => false
  | some f =>
    if f = "" then false
    else if ¬ env.fileExists f then false
    else
      match env.readFile f with
      | Except.error _ => false
      | Except.ok _ =>
        if env.llmDuration idx > LLM_TIMEOUT then false
        else
          match env.llmResult idx with
          | Except.error _ => false
          | Except.ok resp => !(trimS resp = "")

theorem isFixed_processIssue (env : FixEnv) (idx : Nat) (i : IssueRecord) :
    isFixed (processIssue env idx i) = wouldFixB env idx i := by
  unfold processIssue wouldFixB
  cases resolvedFilename i with
  | none => rfl
  | some f =>
    by_cases hf : f = ""
    · simp [hf, isFixed]
    · by_cases he : env.fileExists f
      · cases hr : env.readFile f with
        | error e => simp [hf, he, hr, isFixed]
        | ok cont =>
          by_cases ht : env.llmDuration idx > LLM_TIMEOUT
          · simp [hf, he, hr, ht, isFixed]
          · cases hl : env.llmResult idx with
            | error e => simp [hf, he, hr, ht, hl, isFixed]
            | ok resp =>
              by_cases hrt : trimS resp = "" <;>
                simp [hf, he, hr, ht, hl, hrt, isFixed]
      · simp [hf, he, isFixed]

theorem wouldFixB_fs (fe : FixEnv) (F : FsEnv) :
    wouldFixB { fe with fs := F } = wouldFixB fe := rfl

theorem fixLoop_length (env : FixEnv) (l : List IssueRecord) (k : Nat) :
    (fixLoop env k l).length = l.length := by
  induction l generalizing k with
  | nil => rfl
  | cons a rest ih => simp [fixLoop, ih]

theorem fixLoop_get (env : FixEnv) (l : List IssueRecord) (k : Nat) :
    ∀ j (hj : j < (fixLoop env k l).length) (i : IssueRecord), l.get? j = some i →
      (fixLoop env k l).get ⟨j, hj⟩ = processIssue env (k + j) i := by
  induction l generalizing k with
  | nil => intro j hj i hi; simp [fixLoop] at hj
  | cons a rest ih =>
    intro j hj i hi
    cases j with
    | zero =>
      simp only [List.get?] at hi
      cases hi
      simp [fixLoop]
    | succ j' =>
      simp only [List.get?] at hi
      have hj' : j' < (fixLoop env (k + 1) rest).length := by
        simp only [fixLoop, List.length_cons] at hj
        omega
      have := ih (k + 1) j' hj' i hi
      simp only [fixLoop, List.get]
      rw [this]
      have hk : k + 1 + j' = k + (j' + 1) := by omega
      rw [hk]

theorem fixLoop_count_fs (fe : FixEnv) (w1 w2 : String → Option String)
    (k : Nat) (issues : List IssueRecord) :
    ((fixLoop { fe with fs := ⟨w1⟩ } k issues).filter (fun a => isFixed a)).length
      = ((fixLoop { fe with fs := ⟨w2⟩ } k issues).filter (fun a => isFixed a)).length := by
  induction issues generalizing k with
  | nil => rfl
  | cons i rest ih =>
    have h1 : isFixed (processIssue { fe with fs := ⟨w1⟩ } k i) = wouldFixB fe k i := by
      rw [isFixed_processIssue]; rfl
    have h2 : isFixed (processIssue { fe with fs := ⟨w2⟩ } k i) = wouldFixB fe k i := by
      rw [isFixed_processIssue]; rfl
    simp only [fixLoop, List.filter_cons]
    rw [h1, h2]
    cases wouldFixB fe k i <;> simp [ih]

/-! ## C7 — artifact store round trip -/

/-- C7: for every issue list (including the empty one) and source path,
`store_issues` returns the drawn identifier without failing, and
`get_artifact` on that identifier yields a report whose `count` equals the
length of the stored list and whose `issues` are the stored sequence in
order. -/
theorem store_issues_roundtrip (st : ArtifactState) (freshId : String)
    (issues : List IssueRecord) (path : String) :
    (store_issues st freshId issues path).1 = freshId ∧
    get_artifact (store_issues st freshId issues path).2
        ((store_issues st freshId issues path).1)
      = some { issues := issues, count := issues.length, repo_path := path } := by
  refine ⟨rfl, ?_⟩
  simp [store_issues, get_artifact, List.lookup]

/-! ## C8 — per-issue fault isolation in the fix driver -/

/-- C8: `fix_issues_with_llm` never raises, whatever the environment does
(missing filename keys, nonexistent files, generator timeouts after the
30-unit bound, generator errors): it returns a log with exactly one entry per
stored issue, in stored order (entry `k` is the processing of issue `k`,
independent of what happened to the other issues), and a fixed count equal to
the number of fixed entries, never exceeding the issue count. -/
theorem fix_issues_fault_isolation (env : FixEnv) (st : ArtifactState) (rid : String) :
    ∃ n log, fix_issues_with_llm env st rid = Except.ok (n, log) ∧
      log.length = issueCountOf st rid ∧
      n = (log.filter (fun a => isFixed a)).length ∧
      n ≤ issueCountOf st rid ∧
      ∀ j (hj : j < log.length) (i : IssueRecord), (issuesOf st rid).get? j = some i →
        log.get ⟨j, hj⟩ = processIssue env (j + 1) i := by
  rw [issueCountOf_eq]
  unfold fix_issues_with_llm issuesOf
  cases hga : get_artifact st rid with
  | none =>
    refine ⟨0, [], rfl, rfl, rfl, Nat.le_refl 0, ?_⟩
    intro j hj i hi
    simp at hj
  | some a =>
    by_cases hz : a.issues.length = 0
    · refine ⟨0, [], by simp [hz], by simp [hz], rfl, by simp, ?_⟩
      intro j hj i hi
      simp at hj
    · refine ⟨((fixLoop env 1 a.issues).filter (fun x => isFixed x)).length,
        fixLoop env 1 a.issues, by simp [hz], by simp [fixLoop_length], rfl, ?_, ?_⟩
      · calc ((fixLoop env 1 a.issues).filter (fun x => isFixed x)).length
            ≤ (fixLoop env 1 a.issues).length := List.length_filter_le _ _
          _ = a.issues.length := fixLoop_length env a.issues 1
      · intro j hj i hi
        have := fixLoop_get env a.issues 1 j hj i hi
        rw [this]
        have hc : 1 + j = j + 1 := by omega
        rw [hc]

/-! ## C10 — `write_file` totality and its effect on the fixed count -/

/-- C10: `write_file` is total: it returns `"Updated <path>"` on success and
`"Error writing <path>: <e>"` on failure, never an exception; and the fix
driver's final fixed count is entirely independent of whether the writes
succeed, so an issue whose file write fails is still counted as fixed. -/
theorem write_file_total_and_fix_count_independent :
    (∀ (env : FsEnv) (p c : String),
      ((write_file env p c).1 = "Updated " ++ p ∧ env.writeErr p = none) ∨
      (∃ e, env.writeErr p = some e ∧
        (write_file env p c).1 = "Error writing " ++ p ++ ": " ++ e)) ∧
    (∀ (fe : FixEnv) (w1 w2 : String → Option String) (st : ArtifactState)
        (rid : String) (n1 n2 : Nat) (log1 log2 : List FixAction),
      fix_issues_with_llm { fe with fs := ⟨w1⟩ } st rid = Except.ok (n1, log1) →
      fix_issues_with_llm { fe with fs := ⟨w2⟩ } st rid = Except.ok (n2, log2) →
      n1 = n2) := by
  constructor
  · intro env p c
    unfold write_file
    cases h : env.writeErr p with
    | none => exact Or.inl ⟨rfl, rfl⟩
    | some e => exact Or.inr ⟨e, rfl, rfl⟩
  · intro fe w1 w2 st rid n1 n2 log1 log2 h1 h2
    unfold fix_issues_with_llm at h1 h2
    cases hga : get_artifact st rid with
    | none =>
      rw [hga] at h1 h2
      cases h1; cases h2; rfl
    | some a =>
      rw [hga] at h1 h2
      by_cases hz : a.issues.length = 0
      · simp only [hz, if_pos] at h1 h2
        cases h1; cases h2; rfl
      · simp only [hz, if_neg, if_false] at h1 h2
        rw [Except.ok.injEq, Prod.mk.injEq] at h1 h2
        rw [← h1.1, ← h2.1]
        exact fixLoop_count_fs fe w1 w2 1 a.issues

/-! ## C1 — origin guard of `create_branch_and_push` -/

/-- C1 counterexample: with `expected_origin = "https://h/a.gitx"` against a
working copy whose recorded origin is `"https://h/ax"`, the two URLs differ
under the claim's normalization (trailing slash and `.git` *suffix*
stripped), yet the guard does not fire — `.replace(".git", "")` removes the
interior `".git"` of the expected URL, the normalized forms coincide, and the
call proceeds to mutate and succeed. -/
theorem cbp_mismatch_guard_counterexample :
    specNormalize "https://h/a.gitx" ≠ specNormalize "https://h/ax" ∧
    (create_branch_and_push { originUrl := "https://h/ax" } "patch-1" none none none
        (some "https://h/a.gitx")).1 = Except.ok "patch-1" ∧
    (create_branch_and_push { originUrl := "https://h/ax" } "patch-1" none none none
        (some "https://h/a.gitx")).2 ≠ [] := by
  refine ⟨by decide, by decide, by decide⟩

/-- C1 (amended): for every working copy and every non-empty `expected_origin`,
if the two URLs differ under the normalization the code actually applies —
trailing slashes stripped and **every** occurrence of `".git"` removed — then
`create_branch_and_push` raises a fatal repo-mismatch `RuntimeError` before
performing any git mutation: the effect trace is empty (no branch created or
checked out, nothing stashed, staged, committed, or pushed). -/
theorem cbp_mismatch_guard (env : GitEnv) (b : String)
    (tok : Option String) (files : Option (List String)) (msg : Option String)
    (exp : String) (hne : exp ≠ "")
    (hmm : pyNormalize env.originUrl ≠ pyNormalize exp) :
    ∃ m, create_branch_and_push env b tok files msg (some exp)
      = (Except.error (GitError.runtime m), []) := by
  refine ⟨"[Git] SAFETY CHECK FAILED: Repository origin (" ++ pyNormalize env.originUrl ++
      ") does not match expected repo (" ++ pyNormalize ((some exp).getD "") ++
      "). Refusing to push.", ?_⟩
  have ht : pyTruthy (some exp) = true := by simp [pyTruthy, hne]
  unfold create_branch_and_push
  rw [ht]
  simp only [if_true]
  rw [if_pos (show pyNormalize env.originUrl ≠ pyNormalize ((some exp).getD "") from hmm)]

theorem cbp_mismatch_guard_witness :
    ("https://h/other" ≠ "" ∧
      pyNormalize "https://h/ax" ≠ pyNormalize "https://h/other") ∧
    ∃ m, create_branch_and_push { originUrl := "https://h/ax" } "patch-1" none none none
        (some "https://h/other")
      = (Except.error (GitError.runtime m), []) :=
  ⟨⟨by decide, by decide⟩,
    cbp_mismatch_guard { originUrl := "https://h/ax" } "patch-1" none none none
      "https://h/other" (by decide) (by decide)⟩

/-! ## C6 — empty-diff branch still pushable -/

/-- C6: for a working copy whose origin check passes and that has zero
uncommitted changes — so the commit step reports nothing-to-commit — and
whose checkout, staging, empty commit and push primitives succeed,
`create_branch_and_push` does not fail: it creates an empty commit, pushes
the branch, and returns the branch name. -/
theorem cbp_empty_commit (env : GitEnv) (b : String)
    (tok : Option String) (m : Option String) (exp : Option String) (cerr : String)
    (hguard : pyTruthy exp = false ∨ pyNormalize (exp.getD "") = pyNormalize env.originUrl)
    (hco : env.checkoutErr = none)
    (hadd : env.addErr = none)
    (hc : env.commitErr = some cerr)
    (hcn : pyIn "nothing to commit" (toLowerS cerr) = true)
    (hec : env.emptyCommitErr = none)
    (hpush : env.pushErr = none) :
    (create_branch_and_push env b tok none m exp).1 = Except.ok b ∧
    GitEff.emptyCommit (m.getD "chore: auto style fixes by agent")
      ∈ (create_branch_and_push env b tok none m exp).2 ∧
    GitEff.pushEff b ∈ (create_branch_and_push env b tok none m exp).2 := by
  have hbody : cbpBody env b tok none m
      = (Except.ok b,
          [(if env.branchExistsLocally then GitEff.checkoutExisting b else GitEff.checkoutNew b)]
            ++ [GitEff.addAll, GitEff.emptyCommit (m.getD "chore: auto style fixes by agent")]
            ++ [GitEff.pushEff b] ++ []) := by
    unfold cbpBody checkoutPhase commitPhase pushPhase
    rw [hco, hadd, hc, hec, hpush]
    simp [hcn, addEffsOf]
  have hcall : create_branch_and_push env b tok none m exp = cbpBody env b tok none m := by
    unfold create_branch_and_push
    rcases hguard with hg | hg
    · rw [hg]; simp
    · cases ht : pyTruthy exp with
      | false => simp
      | true =>
        simp only [ht, if_true]
        rw [if_neg (not_not_intro hg.symm)]
  rw [hcall, hbody]
  refine ⟨rfl, ?_, ?_⟩ <;> simp

theorem cbp_empty_commit_witness :
    ((pyTruthy (none : Option String) = false ∨
        pyNormalize ((none : Option String).getD "") = pyNormalize "https://h/r") ∧
      pyIn "nothing to commit" (toLowerS "nothing to commit, working tree clean") = true) ∧
    ((create_branch_and_push
        { originUrl := "https://h/r", commitErr := some "nothing to commit, working tree clean" }
        "patch-1" none none none none).1 = Except.ok "patch-1" ∧
      GitEff.emptyCommit "chore: auto style fixes by agent"
        ∈ (create_branch_and_push
            { originUrl := "https://h/r", commitErr := some "nothing to commit, working tree clean" }
            "patch-1" none none none none).2 ∧
      GitEff.pushEff "patch-1"
        ∈ (create_branch_and_push
            { originUrl := "https://h/r", commitErr := some "nothing to commit, working tree clean" }
            "patch-1" none none none none).2) :=
  ⟨⟨Or.inl (by decide), by decide⟩,
    cbp_empty_commit
      { originUrl := "https://h/r", commitErr := some "nothing to commit, working tree clean" }
      "patch-1" none none none "nothing to commit, working tree clean"
      (Or.inl (by decide)) rfl rfl rfl (by decide) rfl rfl⟩

/-! ## C9 — credential hygiene of clone and push -/

/-- Is this effect a remote-URL rewrite? -/
def isSetUrlEff : GitEff → Bool
  | GitEff.setUrl _ => true
  | _ => false

theorem filter_setUrl_addFiles (fs : List String) :
    (fs.map GitEff.addFile).filter isSetUrlEff = [] := by
  induction fs with
  | nil => rfl
  | cons a l ih => simp [List.filter_cons, isSetUrlEff, ih]

theorem filter_setUrl_addEffs (files : Option (List String)) :
    (addEffsOf files).filter isSetUrlEff = [] := by
  rcases files with _ | fs
  · rfl
  · by_cases hfs : fs = []
    · simp [addEffsOf, hfs, isSetUrlEff]
    · simp [addEffsOf, hfs, filter_setUrl_addFiles]

/-- C9 counterexample: the original claim fails on the code in three ways.
(a) For `repo_url = "https://github.com/o/a.github.io"` (a GitHub-Pages-style
name with an interior `".git"`), the recorded origin after `clone_repo` is
not the clean caller-supplied URL: `.replace('.git', '')` also deletes the
interior occurrence, recording `https://github.com/o/ahub.io`.
(b) When the post-clone `origin.set_url` raises — swallowed at
git_utils.py:63-64 — the token-embedded transport URL persists as the
recorded origin.
(c) When the finally-block restore after a token-authenticated push retry
raises — swallowed at git_utils.py:221-224 — the token-embedding rewrite is
never undone: the URL-rewrite trace is the token-embedding `set_url` alone. -/
theorem clone_origin_counterexample :
    (clone_repo {} "https://github.com/o/a.github.io" "/tmp/autopatch-repos" none
        (some "TOKEN")).recordedOrigin
      ≠ "https://github.com/o/a.github.io" ∧
    pyIn "TOKEN"
      (clone_repo { setUrlOk := false } "https://github.com/o/r" "/tmp/autopatch-repos" none
        (some "TOKEN")).recordedOrigin = true ∧
    ((create_branch_and_push
        { originUrl := "https://h/r", pushErr := some "rejected", restoreUrlOk := false }
        "b1" (some "tok") none none none).2).filter isSetUrlEff
      = [GitEff.setUrl (authedUrl "https://h/r" "tok")] := by
  refine ⟨by decide, by decide, by decide⟩

/-- C9 (amended), matching the swallowed-failure paths the counterexample
exhibits: the recorded origin after `clone_repo` is token-free only when the
post-clone `origin.set_url` succeeds — it then equals `cloneCleanUrl
repo_url`, the caller-supplied URL with trailing slashes stripped and every
`".git"` occurrence removed (re-appended as a suffix when the URL ended with
it), equal to `repo_url` itself in the usual case where `".git"` occurs only
as a suffix — while a swallowed `set_url` failure leaves the token-embedded
transport URL recorded; and inside `create_branch_and_push`, whenever the
token-authenticated retry path runs (initial push failed, truthy token, HTTP
remote), the restore of the original URL is attempted in a `finally` block
regardless of whether the authenticated push succeeds or fails, so the URL
rewrites performed are exactly the token-embedding one followed by the
restore when the restore's `set_url` succeeds, and the token-embedding one
alone when it raises (swallowed). -/
theorem clone_and_push_credential_hygiene :
    (∀ (env : CloneEnv) (url dest : String) (br t : Option String),
      env.setUrlOk = true →
      (clone_repo env url dest br t).recordedOrigin = cloneCleanUrl url) ∧
    (∀ (url dest : String) (br : Option String) (t : String),
      t ≠ "" → startsWithS url "http" = true →
      (clone_repo { setUrlOk := false } url dest br (some t)).recordedOrigin
        = authedUrl url t) ∧
    cloneCleanUrl "https://github.com/owner/repo.git" = "https://github.com/owner/repo.git" ∧
    cloneCleanUrl "https://github.com/owner/repo" = "https://github.com/owner/repo" ∧
    (∀ (env : GitEnv) (b : String) (t : Option String) (files : Option (List String))
        (m : Option String) (pe : String),
      env.checkoutErr = none → env.addErr = none → env.commitErr = none →
      env.pushErr = some pe → pyTruthy t = true → startsWithS env.originUrl "http" = true →
      ((create_branch_and_push env b t files m none).2).filter isSetUrlEff
        = [GitEff.setUrl (authedUrl env.originUrl (t.getD ""))]
          ++ (if env.restoreUrlOk then [GitEff.setUrl env.originUrl] else [])) := by
  refine ⟨?_, ?_, by decide, by decide, ?_⟩
  · intro env url dest br t hset
    unfold clone_repo
    simp [hset]
  · intro url dest br t ht hh
    unfold clone_repo
    simp [pyTruthy, ht, hh]
  · intro env b t files m pe hco hadd hc hp ht hh
    have hnone : pyTruthy (none : Option String) = false := rfl
    unfold create_branch_and_push cbpBody checkoutPhase commitPhase pushPhase
    rw [hco, hadd, hc, hp]
    cases ha : env.authPushErr with
    | none =>
      cases hr : env.restoreUrlOk <;> cases env.branchExistsLocally <;>
        simp [hnone, ht, hh, List.filter_append, List.filter_cons, isSetUrlEff,
          filter_setUrl_addEffs]
    | some aerr =>
      by_cases hperm :
          (pyIn "Permission denied" aerr || pyIn "authentication failed" (toLowerS aerr)) = true <;>
        cases hr : env.restoreUrlOk <;> cases env.branchExistsLocally <;>
          simp [hnone, ht, hh, hperm, List.filter_append, List.filter_cons, isSetUrlEff,
            filter_setUrl_addEffs]

/-- Concrete environment for the C9 witness: the restore succeeding. -/
def gitEnvTokenRetry : GitEnv :=
  { originUrl := "https://h/r", pushErr := some "rejected" }

/-- Concrete environment for the C9 witness: the restore raising. -/
def gitEnvTokenRetryNoRestore : GitEnv :=
  { originUrl := "https://h/r", pushErr := some "rejected", restoreUrlOk := false }

theorem clone_and_push_credential_hygiene_witness :
    (clone_repo {} "https://github.com/o/r.git" "/tmp/autopatch-repos" none
        (some "TOKEN")).recordedOrigin = cloneCleanUrl "https://github.com/o/r.git" ∧
    (clone_repo { setUrlOk := false } "https://github.com/o/r" "/tmp/autopatch-repos" none
        (some "TOKEN")).recordedOrigin = authedUrl "https://github.com/o/r" "TOKEN" ∧
    ((create_branch_and_push gitEnvTokenRetry "b1" (some "tok") none none none).2).filter isSetUrlEff
      = [GitEff.setUrl (authedUrl "https://h/r" "tok")]
        ++ (if gitEnvTokenRetry.restoreUrlOk then [GitEff.setUrl "https://h/r"] else []) ∧
    ((create_branch_and_push gitEnvTokenRetryNoRestore "b1" (some "tok") none none
        none).2).filter isSetUrlEff
      = [GitEff.setUrl (authedUrl "https://h/r" "tok")]
        ++ (if gitEnvTokenRetryNoRestore.restoreUrlOk then [GitEff.setUrl "https://h/r"] else []) :=
  ⟨clone_and_push_credential_hygiene.1 {} "https://github.com/o/r.git" "/tmp/autopatch-repos"
      none (some "TOKEN") rfl,
   clone_and_push_credential_hygiene.2.1 "https://github.com/o/r" "/tmp/autopatch-repos"
      none "TOKEN" (by decide) (by decide),
   clone_and_push_credential_hygiene.2.2.2.2 gitEnvTokenRetry "b1" (some "tok")
      none none "rejected" rfl rfl rfl rfl (by decide) (by decide),
   clone_and_push_credential_hygiene.2.2.2.2 gitEnvTokenRetryNoRestore "b1" (some "tok")
      none none "rejected" rfl rfl rfl rfl (by decide) (by decide)⟩

/-! ## C2 — merge-conflict classification: counterexample at the git layer -/

/-- Environment in which the token-authenticated retry push fails with
conflict-indicating text. -/
def gitEnvTokConflict : GitEnv :=
  { originUrl := "https://github.com/o/r",
    pushErr := some "rejected",
    authPushErr := some "CONFLICT (content): Merge conflict in a.py" }

/-- C2 counterexample: a retry push that fails with conflict-indicating text
does **not** raise `MergeConflictError` when the retry went through the
token-authenticated path — the code raises a generic `RuntimeError`
(`"Push with token failed: ..."`), so the pipeline reports `push_error`, not
`merge_conflict`, for this failure. -/
theorem cbp_token_conflict_counterexample :
    pyIn "conflict" "CONFLICT (content): Merge conflict in a.py" = true ∧
    (create_branch_and_push gitEnvTokConflict "b1" (some "tok") none none none).1
      = Except.error (GitError.runtime
          ("Push with token failed: " ++ "CONFLICT (content): Merge conflict in a.py")) := by
  exact ⟨by decide, by decide⟩

/-! ## C4 — idempotent PR creation -/

theorem filter_eq_nil_of_any_false {α} (p : α → Bool) :
    ∀ l : List α, l.any p = false → l.filter p = []
  | [], _ => rfl
  | a :: l, h => by
    simp only [List.any_cons, Bool.or_eq_false_iff] at h
    simp [List.filter_cons, h.1, filter_eq_nil_of_any_false p l h.2]

theorem filter_ne_nil_of_any_true {α} (p : α → Bool) :
    ∀ l : List α, l.any p = true → l.filter p ≠ []
  | a :: l, h => by
    simp only [List.any_cons, Bool.or_eq_true] at h
    rcases h with h | h
    · simp [List.filter_cons, h]
    · by_cases hpa : p a = true
      · simp [List.filter_cons, hpa]
      · simp only [Bool.not_eq_true] at hpa
        simp [List.filter_cons, hpa, filter_ne_nil_of_any_true p l h]

/-- First PR the list endpoint reports for this repository and qualified
head, if any. -/
def firstHeadUrl (host : Host) (ownerRepo head : String) : Option String :=
  (hostList host ownerRepo head).head?.map PullReq.html_url

theorem hostCreate_ok_inv {host : Host} {o nb bb url : String} {pr : PullReq} {host' : Host}
    (h : hostCreate host o nb bb url = Except.ok (pr, host')) :
    host.prs.any (prMatches o (qualifiedHead o nb)) = false ∧
    pr = { ownerRepo := o, head := qualifiedHead o nb, base := bb, html_url := url } ∧
    host' = { prs := host.prs ++ [pr] } := by
  unfold hostCreate at h
  by_cases ha : host.prs.any (prMatches o (qualifiedHead o nb)) = true
  · rw [if_pos ha] at h; cases h
  · simp only [Bool.not_eq_true] at ha
    rw [if_neg (by simp [ha])] at h
    cases h
    exact ⟨ha, rfl, rfl⟩

theorem hostCreate_error_inv {host : Host} {o nb bb url : String} {s : Nat}
    (h : hostCreate host o nb bb url = Except.error s) :
    host.prs.any (prMatches o (qualifiedHead o nb)) = true := by
  unfold hostCreate at h
  by_cases ha : host.prs.any (prMatches o (qualifiedHead o nb)) = true
  · exact ha
  · simp only [Bool.not_eq_true] at ha
    rw [if_neg (by simp [ha])] at h
    cases h

theorem preHit_some_inv {env : PubEnv} {host : Host} {o hd u : String}
    (h : preHitOf env host o hd = some u) :
    ∃ pr rest, hostList host o hd = pr :: rest ∧ pr.html_url = u := by
  unfold preHitOf at h
  cases h1 : env.list1Ok with
  | false => rw [h1] at h; simp at h
  | true =>
    rw [h1] at h
    cases hl : hostList host o hd with
    | nil => rw [hl] at h; simp at h
    | cons pr rest =>
      rw [hl] at h
      refine ⟨pr, rest, rfl, ?_⟩
      simpa using h

theorem preHit_hit {env : PubEnv} {host : Host} {o hd : String} {pr : PullReq}
    {rest : List PullReq} (h1 : env.list1Ok = true) (hl : hostList host o hd = pr :: rest) :
    preHitOf env host o hd = some pr.html_url := by
  unfold preHitOf
  rw [h1, hl]
  simp

theorem cpr_ok_firstHeadUrl (env : PubEnv) (host : Host) (r nb bb tok t b u : String)
    (h : (create_pull_request env host r nb bb tok t b).1 = Except.ok u) :
    firstHeadUrl (create_pull_request env host r nb bb tok t b).2 (ownerRepoOf r)
      (qualifiedHead (ownerRepoOf r) nb) = some u := by
  unfold create_pull_request at h ⊢
  cases hpre : preHitOf env host (ownerRepoOf r) (qualifiedHead (ownerRepoOf r) nb) with
  | some u2 =>
    rw [hpre] at h
    have hu : u2 = u := by simpa using h
    subst hu
    obtain ⟨pr, rest, hl, hup⟩ := preHit_some_inv hpre
    simp [firstHeadUrl, hl, hup]
  | none =>
    rw [hpre] at h
    cases hc : env.createHttpError with
    | some status =>
      rw [hc] at h
      unfold pr422Recover at h ⊢
      by_cases hs : status = 422
      · cases h2 : env.list2Ok with
        | true =>
          rw [h2] at h
          cases hl : hostList host (ownerRepoOf r) (qualifiedHead (ownerRepoOf r) nb) with
          | cons pr rest =>
            rw [hl] at h
            have hup : pr.html_url = u := by simpa [hs] using h
            simp [firstHeadUrl, hs, hl, hup]
          | nil => rw [hl] at h; simp [hs] at h
        | false => rw [h2] at h; simp [hs] at h
      · simp [hs] at h
    | none =>
      rw [hc] at h
      cases hcr : hostCreate host (ownerRepoOf r) nb bb env.newUrl with
      | ok prh =>
        obtain ⟨pr, host2⟩ := prh
        obtain ⟨hany, hpr, hh⟩ := hostCreate_ok_inv hcr
        rw [hcr] at h
        have hup : pr.html_url = u := by simpa using h
        have hun : env.newUrl = u := by rw [hpr] at hup; simpa using hup
        subst hh
        simp [firstHeadUrl, hostList, List.filter_append,
          filter_eq_nil_of_any_false _ _ hany, List.filter_cons, hpr, prMatches, hun]
      | error s =>
        rw [hcr] at h
        unfold pr422Recover at h ⊢
        cases h2 : env.list2Ok with
        | true =>
          rw [h2] at h
          cases hl : hostList host (ownerRepoOf r) (qualifiedHead (ownerRepoOf r) nb) with
          | cons pr rest =>
            rw [hl] at h
            have hup : pr.html_url = u := by simpa using h
            simp [firstHeadUrl, hl, hup]
          | nil => rw [hl] at h; simp at h
        | false => rw [h2] at h; simp at h

theorem cpr_of_firstHeadUrl (env : PubEnv) (host : Host) (r nb bb tok t b u : String)
    (hf : firstHeadUrl host (ownerRepoOf r) (qualifiedHead (ownerRepoOf r) nb) = some u)
    (henv : env.list1Ok = true ∨ (env.createHttpError = none ∧ env.list2Ok = true)) :
    create_pull_request env host r nb bb tok t b = (Except.ok u, host) := by
  obtain ⟨pr, rest, hl, hu⟩ : ∃ pr rest,
      hostList host (ownerRepoOf r) (qualifiedHead (ownerRepoOf r) nb) = pr :: rest
        ∧ pr.html_url = u := by
    unfold firstHeadUrl at hf
    cases hl : hostList host (ownerRepoOf r) (qualifiedHead (ownerRepoOf r) nb) with
    | nil => rw [hl] at hf; simp at hf
    | cons pr rest =>
      rw [hl] at hf
      refine ⟨pr, rest, rfl, ?_⟩
      simpa using hf
  have hany : host.prs.any (prMatches (ownerRepoOf r) (qualifiedHead (ownerRepoOf r) nb)) = true := by
    by_contra hcon
    simp only [Bool.not_eq_true] at hcon
    have h0 : hostList host (ownerRepoOf r) (qualifiedHead (ownerRepoOf r) nb) = [] :=
      filter_eq_nil_of_any_false _ _ hcon
    rw [hl] at h0
    cases h0
  unfold create_pull_request
  rcases henv with h1 | ⟨hc, h2⟩
  · rw [preHit_hit h1 hl, hu]
  · cases h1 : env.list1Ok with
    | true => rw [preHit_hit h1 hl, hu]
    | false =>
      have hpre : preHitOf env host (ownerRepoOf r) (qualifiedHead (ownerRepoOf r) nb) = none := by
        unfold preHitOf
        rw [h1]
        simp
      rw [hpre, hc]
      cases hcr : hostCreate host (ownerRepoOf r) nb bb env.newUrl with
      | ok prh =>
        obtain ⟨pr0, host2⟩ := prh
        have hfalse := (hostCreate_ok_inv hcr).1
        rw [hfalse] at hany
        cases hany
      | error s =>
        simp [pr422Recover, h2, hl, hu]

theorem cpr_prs_growth (env : PubEnv) (host : Host) (r nb bb tok t b : String) :
    ((create_pull_request env host r nb bb tok t b).2).prs.length ≤ host.prs.length + 1 := by
  unfold create_pull_request
  cases hpre : preHitOf env host (ownerRepoOf r) (qualifiedHead (ownerRepoOf r) nb) with
  | some u => simp
  | none =>
    cases hc : env.createHttpError with
    | some status =>
      by_cases hs : status = 422 <;>
        cases h2 : env.list2Ok <;>
          cases hl : hostList host (ownerRepoOf r) (qualifiedHead (ownerRepoOf r) nb) <;>
            simp [pr422Recover, hs, h2, hl]
    | none =>
      cases hcr : hostCreate host (ownerRepoOf r) nb bb env.newUrl with
      | ok prh =>
        obtain ⟨pr, host2⟩ := prh
        obtain ⟨_, _, hh⟩ := hostCreate_ok_inv hcr
        subst hh
        simp
      | error s =>
        cases h2 : env.list2Ok <;>
          cases hl : hostList host (ownerRepoOf r) (qualifiedHead (ownerRepoOf r) nb) <;>
            simp [pr422Recover, h2, hl]

/-- C4: calling `create_pull_request` twice with identical
`(owner, repo, head_branch, base_branch)` — against a host that answers the
duplicate-check list queries (the pre-create query, or the 422-recovery
re-query with no unrelated HTTP rejection of the create) — returns the same
`pr_url` both times and never creates a second pull request: the second call
leaves the host unchanged, and the first call added at most one PR. -/
theorem create_pull_request_idempotent (env1 env2 : PubEnv) (host0 : Host)
    (repo_url nb bb tok t1 b1 t2 b2 u : String)
    (h1 : (create_pull_request env1 host0 repo_url nb bb tok t1 b1).1 = Except.ok u)
    (h2 : env2.list1Ok = true ∨ (env2.createHttpError = none ∧ env2.list2Ok = true)) :
    create_pull_request env2 (create_pull_request env1 host0 repo_url nb bb tok t1 b1).2
        repo_url nb bb tok t2 b2
      = (Except.ok u, (create_pull_request env1 host0 repo_url nb bb tok t1 b1).2) ∧
    ((create_pull_request env1 host0 repo_url nb bb tok t1 b1).2).prs.length
      ≤ host0.prs.length + 1 := by
  refine ⟨?_, cpr_prs_growth env1 host0 repo_url nb bb tok t1 b1⟩
  exact cpr_of_firstHeadUrl env2 _ repo_url nb bb tok t2 b2 u
    (cpr_ok_firstHeadUrl env1 host0 repo_url nb bb tok t1 b1 u h1) h2

theorem create_pull_request_idempotent_witness :
    ((create_pull_request { newUrl := "https://github.com/o/r/pull/1" } { prs := [] }
        "https://github.com/o/r" "auto-style-fixes-1" "main" "tok" "t" "b").1
      = Except.ok "https://github.com/o/r/pull/1") ∧
    (create_pull_request { newUrl := "https://github.com/o/r/pull/2" }
        (create_pull_request { newUrl := "https://github.com/o/r/pull/1" } { prs := [] }
          "https://github.com/o/r" "auto-style-fixes-1" "main" "tok" "t" "b").2
        "https://github.com/o/r" "auto-style-fixes-1" "main" "tok" "t2" "b2"
      = (Except.ok "https://github.com/o/r/pull/1",
         (create_pull_request { newUrl := "https://github.com/o/r/pull/1" } { prs := [] }
            "https://github.com/o/r" "auto-style-fixes-1" "main" "tok" "t" "b").2) ∧
      ((create_pull_request { newUrl := "https://github.com/o/r/pull/1" } { prs := [] }
          "https://github.com/o/r" "auto-style-fixes-1" "main" "tok" "t" "b").2).prs.length
        ≤ ({ prs := [] } : Host).prs.length + 1) :=
  ⟨by decide,
   create_pull_request_idempotent { newUrl := "https://github.com/o/r/pull/1" }
     { newUrl := "https://github.com/o/r/pull/2" } { prs := [] }
     "https://github.com/o/r" "auto-style-fixes-1" "main" "tok" "t" "b" "t2" "b2"
     "https://github.com/o/r/pull/1" (by decide) (Or.inl rfl)⟩

/-! ## Orchestrator-level lemmas -/

/-- In the pull-and-retry branch (falsy token or non-HTTP remote), a pull
failing with conflict-indicating text makes `create_branch_and_push` raise
`MergeConflictError`. -/
theorem cbp_pull_conflict (env : GitEnv) (b : String) (tok : Option String)
    (files : Option (List String)) (m : Option String) (pe ce : String)
    (hco : env.checkoutErr = none) (hadd : env.addErr = none) (hcm : env.commitErr = none)
    (hp : env.pushErr = some pe)
    (htok : (pyTruthy tok && startsWithS env.originUrl "http") = false)
    (hpull : env.pullErr = some ce)
    (hctext : (pyIn "CONFLICT" ce || pyIn "conflict" ce) = true) :
    ∃ effs, create_branch_and_push env b tok files m none
      = (Except.error (GitError.mergeConflict "Merge conflicts detected while pulling remote."),
         effs) := by
  have hnone : pyTruthy (none : Option String) = false := rfl
  unfold create_branch_and_push cbpBody checkoutPhase commitPhase pushPhase
  rw [hco, hadd, hcm, hp, htok, hpull]
  simp only [hnone, hctext, Bool.false_eq_true, if_false, if_true]
  cases env.branchExistsLocally <;> exact ⟨_, rfl⟩

/-- Under a successful clone and analysis (lint-fix mode, the semantic pass
not raising, a report id present), the run reaches the publish step with no
generated-files list. -/
theorem run_reaches_publish (env : PipeEnv) (st0 : ArtifactState)
    (repo_url gh_token base_branch : String) (flags : Flags) (ao sem rid : String)
    (hclone : env.cloneErr = none)
    (hreq : flags.pr_requirement = none)
    (han : env.analyzeResult = Except.ok ao)
    (hsem : env.semanticResult = Except.ok sem)
    (hrid : findReportId ao = some rid) :
    ∃ ev bnd, run_pipeline env st0 repo_url gh_token base_branch flags
      = pipelinePublish env st0 repo_url gh_token base_branch flags ev none bnd := by
  unfold run_pipeline pipelineTail pipelineFix pipelineConfCi
  simp only [hclone, hreq, han, hsem, hrid,
    show pyTruthy (none : Option String) = false from rfl, Bool.false_eq_true, if_false, if_true]
  cases hsec : flags.security_lint <;> cases hsemf : flags.semantic_refactor <;>
    cases hban : env.banditResult <;> cases hfix : env.fixCallErr <;>
      exact ⟨_, _, rfl⟩

/-- The publish step under an origin mismatch: one `push:error` event, the
`repo_mismatch` failure result, and no git effects. -/
theorem pipelinePublish_mismatch (env : PipeEnv) (st : ArtifactState)
    (repo_url gh_token bb : String) (flags : Flags) (ev : List Event)
    (gf : Option (List String)) (bnd : Option String)
    (hmis : originMismatch env.originRead repo_url = true) :
    pipelinePublish env st repo_url gh_token bb flags ev gf bnd
      = { events := ev ++ [("publish:start", none),
            ("commit:start", some ("auto-style-fixes-" ++ toString env.timestamp)),
            ("push:error", some (mismatchDetail env.originRead repo_url))],
          result := Except.ok
            { status := "failed", reason := some "repo_mismatch",
              detail := some (mismatchDetail env.originRead repo_url) },
          artifacts := st, host := env.host, gitEffs := [], issueAttempted := false } := by
  unfold pipelinePublish
  simp [hmis]

/-- The publish step when the (tokenless-retry) push hits a merge conflict:
`merge_conflict` failure result, a `create_issue` attempt, and `pr:error`
and `prreview:error` events. -/
theorem pipelinePublish_conflict (env : PipeEnv) (st : ArtifactState)
    (repo_url gh_token bb : String) (flags : Flags) (ev : List Event)
    (gf : Option (List String)) (bnd : Option String) (pe ce : String)
    (hmis : originMismatch env.originRead repo_url = false)
    (hco : env.gitEnv.checkoutErr = none)
    (hadd : env.gitEnv.addErr = none)
    (hcm : env.gitEnv.commitErr = none)
    (hp : env.gitEnv.pushErr = some pe)
    (htok : (pyTruthy (some gh_token) && startsWithS env.gitEnv.originUrl "http") = false)
    (hpull : env.gitEnv.pullErr = some ce)
    (hctext : (pyIn "CONFLICT" ce || pyIn "conflict" ce) = true) :
    (pipelinePublish env st repo_url gh_token bb flags ev gf bnd).result
      = Except.ok
          { status := "failed", reason := some "merge_conflict",
            detail := some "Merge conflicts detected while pulling remote." } ∧
    (pipelinePublish env st repo_url gh_token bb flags ev gf bnd).issueAttempted = true ∧
    ("pr:error", some "Cannot create PR due to merge conflict")
      ∈ (pipelinePublish env st repo_url gh_token bb flags ev gf bnd).events ∧
    ("prreview:error", some "Cannot review PR due to merge conflict")
      ∈ (pipelinePublish env st repo_url gh_token bb flags ev gf bnd).events := by
  obtain ⟨effs, hcbp⟩ := cbp_pull_conflict env.gitEnv
    ("auto-style-fixes-" ++ toString env.timestamp) (some gh_token)
    (filesArgOf gf) (commitMessageOf flags) pe ce hco hadd hcm hp htok hpull hctext
  unfold pipelinePublish
  simp only [hmis, Bool.false_eq_true, if_false]
  rw [hcbp]
  cases env.createIssueResult <;> simp

theorem originMismatch_self (r : String) : originMismatch (some r) r = false := by
  simp [originMismatch]

/-- Analysis output carrying one report id, for the concrete runs below. -/
def aoC : String := "Found issues. Reference ID: 123e4567-e89b-42d3-a456-426614174000"

/-! ## C2 — merge-conflict pipeline path -/

/-- C2 (amended): for every pipeline run (lint-fix mode, clone and analysis
succeeding, a report id present, the origin re-validation passing) whose push
fails and whose retry goes through the pull-and-retry branch — taken when the
token is falsy or the remote is not HTTP; the token-authenticated retry
branch raises a generic error instead, see the counterexample — a pull
failure with conflict-indicating text raises the distinct
`MergeConflictError`, and the run then attempts a best-effort `create_issue`
notification, emits both `pr:error` and `prreview:error` events, and returns
`status=failed, reason=merge_conflict`. -/
theorem pipeline_merge_conflict_path (env : PipeEnv) (st0 : ArtifactState)
    (repo_url gh_token base_branch : String) (flags : Flags) (ao sem rid pe ce : String)
    (hclone : env.cloneErr = none)
    (hreq : flags.pr_requirement = none)
    (han : env.analyzeResult = Except.ok ao)
    (hsem : env.semanticResult = Except.ok sem)
    (hrid : findReportId ao = some rid)
    (hmis : originMismatch env.originRead repo_url = false)
    (hco : env.gitEnv.checkoutErr = none)
    (hadd : env.gitEnv.addErr = none)
    (hcm : env.gitEnv.commitErr = none)
    (hp : env.gitEnv.pushErr = some pe)
    (htok : (pyTruthy (some gh_token) && startsWithS env.gitEnv.originUrl "http") = false)
    (hpull : env.gitEnv.pullErr = some ce)
    (hctext : (pyIn "CONFLICT" ce || pyIn "conflict" ce) = true) :
    (run_pipeline env st0 repo_url gh_token base_branch flags).result
      = Except.ok
          { status := "failed", reason := some "merge_conflict",
            detail := some "Merge conflicts detected while pulling remote." } ∧
    (run_pipeline env st0 repo_url gh_token base_branch flags).issueAttempted = true ∧
    ("pr:error", some "Cannot create PR due to merge conflict")
      ∈ (run_pipeline env st0 repo_url gh_token base_branch flags).events ∧
    ("prreview:error", some "Cannot review PR due to merge conflict")
      ∈ (run_pipeline env st0 repo_url gh_token base_branch flags).events := by
  obtain ⟨ev, bnd, hrun⟩ := run_reaches_publish env st0 repo_url gh_token base_branch flags
    ao sem rid hclone hreq han hsem hrid
  rw [hrun]
  exact pipelinePublish_conflict env st0 repo_url gh_token base_branch flags ev none bnd
    pe ce hmis hco hadd hcm hp htok hpull hctext

/-- Concrete run for the C2 witness: no token, push rejected, pull hits a
conflict. -/
def pipeEnvC2 : PipeEnv :=
  { analyzeResult := Except.ok aoC,
    originRead := some "https://github.com/o/r",
    gitEnv := { originUrl := "https://github.com/o/r",
                pushErr := some "rejected",
                pullErr := some "CONFLICT (content): Merge conflict in a.py" } }

theorem pipeline_merge_conflict_path_witness :
    (run_pipeline pipeEnvC2 {} "https://github.com/o/r" "" "main" {}).result
      = Except.ok
          { status := "failed", reason := some "merge_conflict",
            detail := some "Merge conflicts detected while pulling remote." } ∧
    (run_pipeline pipeEnvC2 {} "https://github.com/o/r" "" "main" {}).issueAttempted = true ∧
    ("pr:error", some "Cannot create PR due to merge conflict")
      ∈ (run_pipeline pipeEnvC2 {} "https://github.com/o/r" "" "main" {}).events ∧
    ("prreview:error", some "Cannot review PR due to merge conflict")
      ∈ (run_pipeline pipeEnvC2 {} "https://github.com/o/r" "" "main" {}).events :=
  pipeline_merge_conflict_path pipeEnvC2 {} "https://github.com/o/r" "" "main" {}
    aoC "" "123e4567-e89b-42d3-a456-426614174000" "rejected"
    "CONFLICT (content): Merge conflict in a.py"
    rfl rfl rfl rfl (by decide) (by decide) rfl rfl rfl rfl (by decide) rfl (by decide)

/-! ## C5 — origin re-validation pipeline path -/

/-- C5 (amended): when the pre-push re-validation finds the working copy's
origin differing from the caller-supplied `repo_url`, the run terminates with
`status=failed, reason=repo_mismatch` and performs no git mutation — but,
contrary to the claim, the only event emitted for the failure is
`push:error`: no `:error` events are emitted for the downstream publish, pr,
or prreview stages, which are left without terminal events (publish having
emitted only its start event). -/
theorem pipeline_repo_mismatch_path (env : PipeEnv) (st0 : ArtifactState)
    (repo_url gh_token base_branch : String) (flags : Flags) (ao sem rid : String)
    (hclone : env.cloneErr = none)
    (hreq : flags.pr_requirement = none)
    (han : env.analyzeResult = Except.ok ao)
    (hsem : env.semanticResult = Except.ok sem)
    (hrid : findReportId ao = some rid)
    (hmis : originMismatch env.originRead repo_url = true) :
    ∃ evp, (run_pipeline env st0 repo_url gh_token base_branch flags).events
        = evp ++ [("publish:start", none),
            ("commit:start", some ("auto-style-fixes-" ++ toString env.timestamp)),
            ("push:error", some (mismatchDetail env.originRead repo_url))] ∧
      (run_pipeline env st0 repo_url gh_token base_branch flags).result
        = Except.ok
            { status := "failed", reason := some "repo_mismatch",
              detail := some (mismatchDetail env.originRead repo_url) } ∧
      (run_pipeline env st0 repo_url gh_token base_branch flags).gitEffs = [] := by
  obtain ⟨ev, bnd, hrun⟩ := run_reaches_publish env st0 repo_url gh_token base_branch flags
    ao sem rid hclone hreq han hsem hrid
  rw [hrun, pipelinePublish_mismatch env st0 repo_url gh_token base_branch flags ev none bnd hmis]
  exact ⟨ev, by simp, rfl, rfl⟩

/-- Concrete mismatching run for the C5 counterexample and witness. -/
def pipeEnvC5 : PipeEnv :=
  { analyzeResult := Except.ok aoC,
    originRead := some "https://github.com/o/other",
    gitEnv := { originUrl := "https://github.com/o/other" } }

/-- C5 counterexample: in a concrete mismatching run the result is
`failed/repo_mismatch` and `push:error` is emitted, but — contrary to the
claim — no `publish:error`, `pr:error` or `prreview:error` event appears
anywhere in the stream, so those downstream stages are left without terminal
events. -/
theorem pipeline_mismatch_events_counterexample :
    (run_pipeline pipeEnvC5 {} "https://github.com/o/mine" "tok" "main" {}).result
      = Except.ok
          { status := "failed", reason := some "repo_mismatch",
            detail := some (mismatchDetail (some "https://github.com/o/other")
              "https://github.com/o/mine") } ∧
    ((run_pipeline pipeEnvC5 {} "https://github.com/o/mine" "tok" "main" {}).events.map
        Prod.fst).contains "push:error" = true ∧
    ((run_pipeline pipeEnvC5 {} "https://github.com/o/mine" "tok" "main" {}).events.map
        Prod.fst).contains "publish:error" = false ∧
    ((run_pipeline pipeEnvC5 {} "https://github.com/o/mine" "tok" "main" {}).events.map
        Prod.fst).contains "pr:error" = false ∧
    ((run_pipeline pipeEnvC5 {} "https://github.com/o/mine" "tok" "main" {}).events.map
        Prod.fst).contains "prreview:error" = false := by decide

theorem pipeline_repo_mismatch_path_witness :
    ∃ evp, (run_pipeline pipeEnvC5 {} "https://github.com/o/mine" "tok" "main" {}).events
        = evp ++ [("publish:start", none),
            ("commit:start", some ("auto-style-fixes-" ++ toString (0 : Nat))),
            ("push:error", some (mismatchDetail (some "https://github.com/o/other")
              "https://github.com/o/mine"))] ∧
      (run_pipeline pipeEnvC5 {} "https://github.com/o/mine" "tok" "main" {}).result
        = Except.ok
            { status := "failed", reason := some "repo_mismatch",
              detail := some (mismatchDetail (some "https://github.com/o/other")
                "https://github.com/o/mine") } ∧
      (run_pipeline pipeEnvC5 {} "https://github.com/o/mine" "tok" "main" {}).gitEffs = [] :=
  pipeline_repo_mismatch_path pipeEnvC5 {} "https://github.com/o/mine" "tok" "main" {}
    aoC "" "123e4567-e89b-42d3-a456-426614174000"
    rfl rfl rfl rfl (by decide) (by decide)

/-! ## C3 — stage events with all optional flags disabled -/

/-- Concrete benign run for the C3 counterexample. -/
def pipeEnvC3 : PipeEnv :=
  { analyzeResult := Except.ok aoC,
    originRead := some "https://github.com/o/r",
    gitEnv := { originUrl := "https://github.com/o/r" },
    pubEnv := { newUrl := "https://github.com/o/r/pull/1" } }

/-- C3 counterexample: in a full run with all optional flags disabled, the
security, semantic, confidence and ci stages emit **no** events at all —
neither `:done` nor any explicit not-requested terminal event — so the claim
that every declared optional stage emits a terminal event fails; only
prreview gets an explicit not-requested `prreview:done`. -/
theorem pipeline_optional_stage_events_counterexample :
    ((run_pipeline pipeEnvC3 {} "https://github.com/o/r" "tok" "main" {}).events.map
        Prod.fst).contains "security:done" = false ∧
    ((run_pipeline pipeEnvC3 {} "https://github.com/o/r" "tok" "main" {}).events.map
        Prod.fst).contains "security:error" = false ∧
    ((run_pipeline pipeEnvC3 {} "https://github.com/o/r" "tok" "main" {}).events.map
        Prod.fst).contains "security:start" = false ∧
    ((run_pipeline pipeEnvC3 {} "https://github.com/o/r" "tok" "main" {}).events.map
        Prod.fst).contains "semantic:done" = false ∧
    ((run_pipeline pipeEnvC3 {} "https://github.com/o/r" "tok" "main" {}).events.map
        Prod.fst).contains "confidence:done" = false ∧
    ((run_pipeline pipeEnvC3 {} "https://github.com/o/r" "tok" "main" {}).events.map
        Prod.fst).contains "ci:done" = false ∧
    ((run_pipeline pipeEnvC3 {} "https://github.com/o/r" "tok" "main" {}).events.map
        Prod.fst).contains "prreview:done" = true := by decide

/-- C3 (amended): in a full successful run with all optional flags disabled,
the emitted stage-name sequence is exactly the one below: the stages that run
each emit their start and terminal events, prreview emits an explicit
not-requested `prreview:done` — but the security, semantic, confidence and ci
stages emit no events at all (no `:done`, no explicit skipped event), so a
listener sees no terminal event for them. -/
theorem pipeline_stage_events_flags_off (st0 : ArtifactState)
    (repo_url gh_token base_branch ao rid u : String) (ts : Nat)
    (hrid : findReportId ao = some rid) :
    ((run_pipeline
        { analyzeResult := Except.ok ao, originRead := some repo_url, timestamp := ts,
          gitEnv := { originUrl := repo_url }, pubEnv := { newUrl := u } }
        st0 repo_url gh_token base_branch {}).events.map Prod.fst
      = ["clone:start", "clone:done", "scan:start", "lint:start", "analyze:start",
         "analyze:done", "lint:done", "scan:done", "generate:start", "fix:start",
         "fix:done", "generate:done", "apply:done", "publish:start", "commit:start",
         "commit:done", "push:done", "publish:start", "pr:created", "publish:done",
         "prreview:done", "result"]) ∧
    (run_pipeline
        { analyzeResult := Except.ok ao, originRead := some repo_url, timestamp := ts,
          gitEnv := { originUrl := repo_url }, pubEnv := { newUrl := u } }
        st0 repo_url gh_token base_branch {}).result
      = Except.ok
          { status := "ok", branch := some ("auto-style-fixes-" ++ toString ts),
            pr_url := some u, bandit := none } ∧
    ("prreview:done", some "Review not requested")
      ∈ (run_pipeline
          { analyzeResult := Except.ok ao, originRead := some repo_url, timestamp := ts,
            gitEnv := { originUrl := repo_url }, pubEnv := { newUrl := u } }
          st0 repo_url gh_token base_branch {}).events := by
  refine ⟨?_, ?_, ?_⟩ <;>
    simp [run_pipeline, pipelineTail, pipelineFix, pipelineConfCi, pipelinePublish,
      pipelinePR, hrid, originMismatch_self, create_branch_and_push, cbpBody,
      checkoutPhase, commitPhase, pushPhase, addEffsOf, create_pull_request, preHitOf,
      hostList, hostCreate, clone_repo, filesArgOf, commitMessageOf, pyTruthy]

theorem pipeline_stage_events_flags_off_witness :
    ((run_pipeline
        { analyzeResult := Except.ok aoC, originRead := some "https://github.com/o/r",
          timestamp := 7, gitEnv := { originUrl := "https://github.com/o/r" },
          pubEnv := { newUrl := "https://github.com/o/r/pull/1" } }
        {} "https://github.com/o/r" "tok" "main" {}).events.map Prod.fst
      = ["clone:start", "clone:done", "scan:start", "lint:start", "analyze:start",
         "analyze:done", "lint:done", "scan:done", "generate:start", "fix:start",
         "fix:done", "generate:done", "apply:done", "publish:start", "commit:start",
         "commit:done", "push:done", "publish:start", "pr:created", "publish:done",
         "prreview:done", "result"]) ∧
    (run_pipeline
        { analyzeResult := Except.ok aoC, originRead := some "https://github.com/o/r",
          timestamp := 7, gitEnv := { originUrl := "https://github.com/o/r" },
          pubEnv := { newUrl := "https://github.com/o/r/pull/1" } }
        {} "https://github.com/o/r" "tok" "main" {}).result
      = Except.ok
          { status := "ok", branch := some ("auto-style-fixes-" ++ toString (7 : Nat)),
            pr_url := some "https://github.com/o/r/pull/1", bandit := none } ∧
    ("prreview:done", some "Review not requested")
      ∈ (run_pipeline
          { analyzeResult := Except.ok aoC, originRead := some "https://github.com/o/r",
            timestamp := 7, gitEnv := { originUrl := "https://github.com/o/r" },
            pubEnv := { newUrl := "https://github.com/o/r/pull/1" } }
          {} "https://github.com/o/r" "tok" "main" {}).events :=
  pipeline_stage_events_flags_off {} "https://github.com/o/r" "tok" "main" aoC
    "123e4567-e89b-42d3-a456-426614174000" "https://github.com/o/r/pull/1" 7 (by decide)

end AutoPatch
